import Mathlib

/-!
Verification of the `ba_timeseries_gradients` pipeline
(`src/ba_timeseries_gradients/{gradients,cli,parser,utils,exceptions}.py`).

The numeric kernel is embedded over exact rationals: a matrix is a function
`Nat → Nat → ℚ`, and the external numpy / nibabel / BrainSpace calls
(`np.corrcoef`, `np.arctanh`, `np.tanh`, the squeeze/swapaxes/reshape chain,
`reduce_by_labels`, image loading) are kept as explicit function parameters
bundled in `Externals`, so that every theorem quantifies over them.  The
repository's own control flow — the guards, the accumulation loop, the
dispatch on file suffixes, the argument validators — is translated
line by line from the Python source.
-/

/-- Python exception values reachable in this code base.  `InputError` and
`InternalError` are the package's typed exceptions (subclasses of
`BaseLoggingError`, `exceptions.py` lines 11–26); `ValueError` is the
built-in raised at `gradients.py` line 81; `ArgumentTypeError` is
`argparse.ArgumentTypeError` raised by the validators in `parser.py`. -/
inductive PyErr where
  | inputError (msg : String)
  | internalError (msg : String)
  | valueError (msg : String)
  | argumentTypeError (msg : String)
  deriving DecidableEq, Repr

/-- Whether an exception belongs to the package's typed hierarchy
(`BaseLoggingError` and its subclasses `InputError`, `InternalError`). -/
def PyErr.isTyped : PyErr → Bool
  | .inputError _ => true
  | .internalError _ => true
  | .valueError _ => false
  | .argumentTypeError _ => false

/-- A dense 2-D array with explicit dimensions (the image of numpy's
`reshape(shape[0], -1)`), entries over exact rationals. -/
structure Arr2 where
  rows : Nat
  cols : Nat
  entry : Nat → Nat → ℚ

/-- A square matrix over exact rationals, indexed by `Nat`. -/
abbrev Mat := Nat → Nat → ℚ

/-- Element-wise application of a scalar function (models `np.arctanh` /
`np.tanh` applied to an ndarray). -/
def matMap (f : ℚ → ℚ) (m : Mat) : Mat := fun i j => f (m i j)

/-- Element-wise matrix addition (models `+=` on ndarrays). -/
def matAdd (a b : Mat) : Mat := fun i j => a i j + b i j

/-- Element-wise division of a matrix by a scalar (models `z_matrix / len(files)`). -/
def matDiv (m : Mat) (c : ℚ) : Mat := fun i j => m i j / c

/-- Element-wise sum of a list of matrices. -/
def matListSum (ms : List Mat) : Mat := fun i j => (ms.map (fun m => m i j)).sum

/-- A loaded `nibabel` image: `Nifti1Image` (whose payload is
`get_fdata()`), `GiftiImage` (whose payload is `darrays[0].data`,
cf. `_get_nifti_gifti_data`), or any other `FileBasedImage`. -/
inductive Image (Raw : Type) where
  | nifti (fdata : Raw)
  | gifti (darray0 : Raw)
  | other
  deriving DecidableEq

/-- The external numpy / BrainSpace functions the kernel calls, kept
abstract: `to2d` is the chain `squeeze` / `swapaxes(0, -1)` /
`reshape(shape[0], -1)` of `gradients.py` lines 92–95, `flatten` is
`ndarray.flatten()`, `reduce_by_labels` is
`brainspace.utils.parcellation.reduce_by_labels`, `corrcoef` is
`np.corrcoef(·, rowvar=False)`, and `arctanh` / `tanh` are the element-wise
scalar maps of `np.arctanh` / `np.tanh`. -/
structure Externals (Raw : Type) where
  to2d : Raw → Arr2
  flatten : Raw → List ℚ
  reduce_by_labels : Arr2 → List ℚ → Arr2
  corrcoef : Arr2 → Mat
  arctanh : ℚ → ℚ
  tanh : ℚ → ℚ

/-- `gradients._get_nifti_gifti_data` (gradients.py lines 137–152): the data
of a NIfTI image, the first data array of a GIFTI image, and `InputError`
for anything else. -/
def _get_nifti_gifti_data {Raw : Type} (image : Image Raw) : Except PyErr Raw :=
  match image with
  | .nifti d => .ok d
  | .gifti d => .ok d
  | .other => .error (.inputError "Input image must be a NIFTI or GIFTI image.")

/-- `gradients._parcellate_timeseries` (gradients.py lines 111–134):
`InputError` when `np.shape(timeseries)[1] != np.size(parcellation)`, else
`reduce_by_labels(timeseries, parcellation)`. -/
def _parcellate_timeseries (reduce_by_labels : Arr2 → List ℚ → Arr2)
    (timeseries : Arr2) (parcellation : List ℚ) : Except PyErr Arr2 :=
  if timeseries.cols ≠ parcellation.length then
    .error (.inputError "Parcellation dimensions do not match timeseries dimensions.")
  else
    .ok (reduce_by_labels timeseries parcellation)

/-- The parcellation-loading prologue of `_get_connectivity_matrix`
(gradients.py lines 83–88): when a parcellation file is supplied its image
is loaded and flattened, otherwise `parcellation_data` is `None`. -/
def loadParcellationData {Raw : Type} (E : Externals Raw)
    (parcellation_file : Option (Image Raw)) : Except PyErr (Option (List ℚ)) :=
  match parcellation_file with
  | none => .ok none
  | some img =>
    match _get_nifti_gifti_data img with
    | .error e => .error e
    | .ok raw => .ok (some (E.flatten raw))

/-- The per-file body of the loop in `_get_connectivity_matrix`
(gradients.py lines 92–101): load the image data, reshape it to a
time-by-feature 2-D array, optionally parcellate, then take
`np.arctanh(np.corrcoef(timeseries_2d, rowvar=False))`. -/
def processFile {Raw : Type} (E : Externals Raw) (parcellation_data : Option (List ℚ))
    (img : Image Raw) : Except PyErr Mat :=
  match _get_nifti_gifti_data img with
  | .error e => .error e
  | .ok raw =>
    match parcellation_data with
    | none => .ok (matMap E.arctanh (E.corrcoef (E.to2d raw)))
    | some p =>
      match _parcellate_timeseries E.reduce_by_labels (E.to2d raw) p with
      | .error e => .error e
      | .ok ts2d => .ok (matMap E.arctanh (E.corrcoef ts2d))

/-- The accumulation of the loop in `_get_connectivity_matrix`
(gradients.py lines 103–106): after the first file initialises the
accumulator with `z_matrix / len(files)`, each further file adds its own
`z_matrix / len(files)`; a per-file exception propagates. -/
def connLoop {Raw : Type} (pf : Image Raw → Except PyErr Mat) (n : ℚ) (acc : Mat) :
    List (Image Raw) → Except PyErr Mat
  | [] => .ok acc
  | f :: fs =>
    match pf f with
    | .error e => .error e
    | .ok z => connLoop pf n (matAdd acc (matDiv z n)) fs

/-- `gradients._get_connectivity_matrix` (gradients.py lines 66–108):
raise the built-in `ValueError` on an empty collection, load the optional
parcellation, accumulate each file's Fisher-z matrix scaled by
`1 / len(files)`, and return the element-wise `np.tanh` of the result. -/
def _get_connectivity_matrix {Raw : Type} (E : Externals Raw)
    (files : List (Image Raw)) (parcellation_file : Option (Image Raw)) :
    Except PyErr Mat :=
  match files with
  | [] => .error (.valueError "No files provided.")
  | f :: fs =>
    match loadParcellationData E parcellation_file with
    | .error e => .error e
    | .ok pd =>
      match processFile E pd f with
      | .error e => .error e
      | .ok z0 =>
        match connLoop (processFile E pd) ((f :: fs).length : ℚ)
            (matDiv z0 ((f :: fs).length : ℚ)) fs with
        | .error e => .error e
        | .ok g => .ok (matMap E.tanh g)

/-- The keyword arguments the pipeline hands to
`brainspace.gradient.GradientMaps(...)` and `.fit(...)`
(gradients.py lines 54–61). -/
structure FitInput where
  connectivity : Mat
  n_components : Nat
  kernel : String
  approach : String
  alignment : Option String
  random_state : Option Nat
  sparsity : ℚ

/-- Model of the external `GradientMaps(...).fit(...)` call: BrainSpace's
embedding is a deterministic function of its parameters and of the effective
random seed, which is `random_state` when one is given and the ambient RNG
state otherwise.  The pair returned stands for `(gradients_, lambdas_)`. -/
def GradientMaps_fit (fitCore : Nat → FitInput → Mat × Mat) (ambientSeed : Nat)
    (inp : FitInput) : Mat × Mat :=
  fitCore (inp.random_state.getD ambientSeed) inp

/-- `gradients.compute_gradients` (gradients.py lines 20–63): build the group
connectivity matrix, then fit a `GradientMaps` constructed with
`alignment=None` and `random_state=0`. -/
def compute_gradients {Raw : Type} (E : Externals Raw)
    (fitCore : Nat → FitInput → Mat × Mat) (ambientSeed : Nat)
    (files : List (Image Raw)) (parcellation_file : Option (Image Raw))
    (approach kernel : String) (n_components : Nat) (sparsity : ℚ) :
    Except PyErr (Mat × Mat) :=
  match _get_connectivity_matrix E files parcellation_file with
  | .error e => .error e
  | .ok conn =>
    .ok (GradientMaps_fit fitCore ambientSeed
      ⟨conn, n_components, kernel, approach, none, some 0, sparsity⟩)

/-- Python `str.endswith` for a single plain suffix. -/
def strEndsWith (s p : String) : Bool := List.isSuffixOf p.toList s.toList

/-- The fields of the parsed CLI namespace that `_raise_invalid_input` and
the output-path computation of `main` consult (cli.py). -/
structure Args where
  output_dir : String
  output_format : String
  parcellation : Option String
  force : Bool

/-- The output path `main` computes at cli.py line 28:
`args.output_dir / ("gradients." + args.output_format)`. -/
def outputFile (args : Args) : String :=
  String.append (String.append args.output_dir "/gradients.") args.output_format

/-- `cli._raise_invalid_input` (cli.py lines 226–251), with the filesystem
modelled by the predicate `exists_fs` (the truth of `Path.exists()`): the
overwrite guard tests `output_dir / "gradients.h5"`, then a non-empty file
list is required, then volume inputs (first file ending in `nii` or
`nii.gz`) require a parcellation. -/
def _raise_invalid_input (exists_fs : String → Bool) (args : Args)
    (files : List String) : Except PyErr Unit :=
  if exists_fs (String.append args.output_dir "/gradients.h5") && !args.force then
    .error (.inputError "Output file already exists. Use --force to overwrite.")
  else
    match files with
    | [] => .error (.inputError "No input files found.")
    | first :: _ =>
      if args.parcellation.isNone && (strEndsWith first "nii" || strEndsWith first "nii.gz") then
        .error (.inputError "Must provide a parcellation if input files are volume files.")
      else
        .ok ()

/-- The final path component, as `pathlib.PurePath.name`: everything after
the last `/`. -/
def pathNameChars (p : List Char) : List Char :=
  ((p.reverse.takeWhile (fun c => c != '/')).reverse)

/-- `pathlib.PurePath.suffix` on the characters of the name: with `i` the
index of the last dot, the suffix is `name[i:]` when `0 < i < len(name)-1`
and empty otherwise. -/
def pathSuffixChars (p : List Char) : List Char :=
  let name := pathNameChars p
  let tailLen := (name.reverse.takeWhile (fun c => c != '.')).length
  if tailLen < name.length then
    let i := name.length - tailLen - 1
    if 0 < i ∧ i < name.length - 1 then name.drop i else []
  else []

/-- `pathlib.Path(filename).suffix` of utils.py line 24. -/
def pathSuffix (p : String) : String := String.mk (pathSuffixChars p.toList)

/-- What `utils.save_hdf5` / `utils.save_json` persist: a serialized file
holding the two arrays under the names `gradients` and `lambdas`
(HDF5 datasets in the one case, JSON object keys in the other). -/
inductive SavedFile (A : Type) where
  | hdf5 (datasets : List (String × A))
  | jsonFile (object : List (String × A))
  deriving DecidableEq

/-- `utils.save_hdf5` (utils.py lines 32–45): an HDF5 file with datasets
`gradients` and `lambdas`. -/
def save_hdf5 {A : Type} (output_gradients lambdas : A) : SavedFile A :=
  .hdf5 [("gradients", output_gradients), ("lambdas", lambdas)]

/-- `utils.save_json` (utils.py lines 48–66): a JSON object with keys
`gradients` and `lambdas`. -/
def save_json {A : Type} (output_gradients lambdas : A) : SavedFile A :=
  .jsonFile [("gradients", output_gradients), ("lambdas", lambdas)]

/-- `utils.save` (utils.py lines 11–29): dispatch on the filename's suffix,
`.h5` to HDF5, `.json` to JSON, anything else to `InternalError`. -/
def save {A : Type} (output_gradients lambdas : A) (filename : String) :
    Except PyErr (SavedFile A) :=
  if pathSuffix filename = ".h5" then
    .ok (save_hdf5 output_gradients lambdas)
  else if pathSuffix filename = ".json" then
    .ok (save_json output_gradients lambdas)
  else
    .error (.internalError (String.append "Unsupported file type: " filename))

/-- The `choices` restriction of one `argparse.add_argument` call: `none`
when the keyword is absent. -/
structure ArgChoices where
  choices : Option (List String)
  deriving DecidableEq

/-- argparse semantics for `choices`: a parsed value is accepted when no
`choices` list was given, and otherwise exactly when it is listed. -/
def argparse_accepts (a : ArgChoices) (v : String) : Bool :=
  match a.choices with
  | none => true
  | some cs => cs.contains v

/-- The `--dimensionality_reduction` argument of `cli._get_parser`
(cli.py lines 167–173), the parser `cli.main` builds and runs: no
`choices` keyword is passed. -/
def cli_dimensionality_reduction : ArgChoices := ⟨none⟩

/-- The `--dimensionality_reduction` argument of the unused
`parser.get_parser` (parser.py lines 121–128): `choices=["pca", "le", "dm"]`. -/
def parserModule_dimensionality_reduction : ArgChoices := ⟨some ["pca", "le", "dm"]⟩

/-- `parser._is_between_zero_and_one` (parser.py lines 198–209) on the
numeric value of its argument: return it when `0 <= float(val) < 1`, raise
`argparse.ArgumentTypeError` otherwise. -/
def _is_between_zero_and_one (val : ℚ) : Except PyErr ℚ :=
  if 0 ≤ val ∧ val < 1 then
    .ok val
  else
    .error (.argumentTypeError "is not in range [0, 1).")

/-- A concrete instantiation of the external functions over `Raw := ℚ`
(a one-voxel image), used to evaluate the theorems on closed inputs. -/
def trivExternals : Externals ℚ :=
  ⟨fun q => ⟨1, 1, fun _ _ => q⟩, fun q => [q], fun a _ => a,
   fun a => fun i j => a.entry i j, id, id⟩

/-- The Fisher-z matrix `trivExternals` assigns to each loadable one-voxel
image: the constant matrix of the voxel value. -/
def trivZ : Image ℚ → Mat
  | .nifti d => fun _ _ => d
  | .gifti d => fun _ _ => d
  | .other => fun _ _ => 0

theorem matListSum_nil : matListSum [] = fun _ _ => 0 := by
  funext i j
  simp [matListSum]

theorem matListSum_cons (m : Mat) (ms : List Mat) :
    matListSum (m :: ms) = matAdd m (matListSum ms) := by
  funext i j
  simp [matListSum, matAdd]

/-- Running the accumulation loop over files that all process successfully
adds `(sum of the z-matrices) / n` to the accumulator. -/
theorem connLoop_eq_ok {Raw : Type} (pf : Image Raw → Except PyErr Mat)
    (zOf : Image Raw → Mat) (n : ℚ) :
    ∀ (fs : List (Image Raw)) (acc : Mat),
      (∀ f ∈ fs, pf f = .ok (zOf f)) →
      connLoop pf n acc fs = .ok (matAdd acc (matDiv (matListSum (fs.map zOf)) n)) := by
  intro fs
  induction fs with
  | nil =>
    intro acc _
    simp only [connLoop, List.map_nil, matListSum_nil]
    congr 1
    funext i j
    simp [matAdd, matDiv]
  | cons f fs ih =>
    intro acc hz
    simp only [connLoop, hz f (List.mem_cons_self f fs)]
    rw [ih (matAdd acc (matDiv (zOf f) n)) (fun g hg => hz g (List.mem_cons_of_mem f hg))]
    congr 1
    funext i j
    simp only [matAdd, matDiv, List.map_cons, matListSum_cons]
    ring

/-- When the parcellation loads to `pd` and every file's Fisher-z matrix is
`zOf`, the group connectivity matrix is the element-wise `tanh` of the mean
of the per-file z-matrices. -/
theorem connMatrix_ok_of_all_ok {Raw : Type} (E : Externals Raw)
    (files : List (Image Raw)) (pfile : Option (Image Raw))
    (pd : Option (List ℚ)) (zOf : Image Raw → Mat)
    (hne : files ≠ [])
    (hpd : loadParcellationData E pfile = .ok pd)
    (hz : ∀ f ∈ files, processFile E pd f = .ok (zOf f)) :
    _get_connectivity_matrix E files pfile =
      .ok (matMap E.tanh (matDiv (matListSum (files.map zOf)) (files.length : ℚ))) := by
  match files with
  | [] => exact absurd rfl hne
  | f :: fs =>
    simp only [_get_connectivity_matrix, hpd, hz f (List.mem_cons_self f fs),
      connLoop_eq_ok (processFile E pd) zOf ((f :: fs).length : ℚ) fs
        (matDiv (zOf f) ((f :: fs).length : ℚ))
        (fun g hg => hz g (List.mem_cons_of_mem f hg))]
    congr 1
    funext i j
    simp only [matMap, matAdd, matDiv, List.map_cons, matListSum_cons]
    congr 1
    ring

/-- Claim C1: for every non-empty collection of n timeseries files whose
per-file processing succeeds, `_get_connectivity_matrix` returns the
element-wise `tanh` of the arithmetic mean, over the n files, of the
element-wise `arctanh` (Fisher z-transform) of each file's correlation
matrix: the group matrix is `tanh((1/n) * sum_i arctanh(corrcoef(ts2d_i)))`,
where each `zOf f = arctanh(corrcoef(ts2d_f))` is what `processFile`
computes for file `f`. -/
theorem conn_matrix_eq_tanh_mean_fisher_z {Raw : Type} (E : Externals Raw)
    (files : List (Image Raw)) (pfile : Option (Image Raw))
    (pd : Option (List ℚ)) (zOf : Image Raw → Mat)
    (hne : files ≠ [])
    (hpd : loadParcellationData E pfile = .ok pd)
    (hz : ∀ f ∈ files, processFile E pd f = .ok (zOf f)) :
    _get_connectivity_matrix E files pfile =
      .ok (matMap E.tanh (matDiv (matListSum (files.map zOf)) (files.length : ℚ))) :=
  connMatrix_ok_of_all_ok E files pfile pd zOf hne hpd hz

theorem conn_matrix_eq_tanh_mean_fisher_z_witness :
    _get_connectivity_matrix trivExternals [Image.nifti (1 : ℚ), Image.nifti 3] none =
      .ok (matMap trivExternals.tanh
        (matDiv (matListSum (List.map trivZ [Image.nifti (1 : ℚ), Image.nifti 3]))
          (([Image.nifti (1 : ℚ), Image.nifti 3].length : ℚ))) ) :=
  conn_matrix_eq_tanh_mean_fisher_z trivExternals [Image.nifti (1 : ℚ), Image.nifti 3]
    none none trivZ (by simp) rfl
    (by
      intro f hf
      rcases List.mem_cons.mp hf with rfl | hf2
      · rfl
      · rcases List.mem_cons.mp hf2 with rfl | hf3
        · rfl
        · exact absurd hf3 (List.not_mem_nil f))

/-- Claim C2: the connectivity matrix is invariant under any permutation of
the order in which the (successfully processing) files are supplied: the
per-file z-matrices are combined by averaging, so reordering the collection
does not change the result. -/
theorem conn_matrix_perm_invariant {Raw : Type} (E : Externals Raw)
    (files files' : List (Image Raw)) (pfile : Option (Image Raw))
    (pd : Option (List ℚ)) (zOf : Image Raw → Mat)
    (hperm : files.Perm files')
    (hpd : loadParcellationData E pfile = .ok pd)
    (hz : ∀ f ∈ files, processFile E pd f = .ok (zOf f)) :
    _get_connectivity_matrix E files pfile = _get_connectivity_matrix E files' pfile := by
  rcases eq_or_ne files [] with h | h
  · subst h
    rw [← (List.Perm.nil_eq hperm)]
  · have hne' : files' ≠ [] := by
      intro hnil
      exact h (List.length_eq_zero.mp (by rw [hperm.length_eq, hnil, List.length_nil]))
    rw [connMatrix_ok_of_all_ok E files pfile pd zOf h hpd hz,
        connMatrix_ok_of_all_ok E files' pfile pd zOf hne' hpd
          (fun f hf => hz f (hperm.mem_iff.mpr hf))]
    have hsum : matListSum (files.map zOf) = matListSum (files'.map zOf) := by
      funext i j
      exact List.Perm.sum_eq ((hperm.map zOf).map (fun m => m i j))
    rw [hsum, hperm.length_eq]

theorem conn_matrix_perm_invariant_witness :
    _get_connectivity_matrix trivExternals [Image.nifti (1 : ℚ), Image.nifti 3] none =
      _get_connectivity_matrix trivExternals [Image.nifti (3 : ℚ), Image.nifti 1] none :=
  conn_matrix_perm_invariant trivExternals [Image.nifti (1 : ℚ), Image.nifti 3]
    [Image.nifti (3 : ℚ), Image.nifti 1] none none trivZ
    (List.Perm.swap (Image.nifti (3 : ℚ)) (Image.nifti 1) [])
    rfl
    (by
      intro f hf
      rcases List.mem_cons.mp hf with rfl | hf2
      · rfl
      · rcases List.mem_cons.mp hf2 with rfl | hf3
        · rfl
        · exact absurd hf3 (List.not_mem_nil f))

/-- Claim C3: with a parcellation supplied, each file's time-by-feature 2-D
timeseries is reduced by labels before correlation, and
`_parcellate_timeseries` raises `InputError` exactly when the number of
columns of the 2-D timeseries differs from the number of elements of the
flattened parcellation vector; without a parcellation the timeseries goes to
the correlation step unparcellated. -/
theorem parcellation_applied_iff_dims_match {Raw : Type} (E : Externals Raw)
    (ts : Arr2) (parc : List ℚ) (img : Image Raw) (raw : Raw)
    (hload : _get_nifti_gifti_data img = .ok raw) :
    ((∃ msg, _parcellate_timeseries E.reduce_by_labels ts parc = .error (.inputError msg)) ↔
      ts.cols ≠ parc.length)
    ∧ (ts.cols = parc.length →
        _parcellate_timeseries E.reduce_by_labels ts parc = .ok (E.reduce_by_labels ts parc))
    ∧ ((E.to2d raw).cols = parc.length →
        processFile E (some parc) img =
          .ok (matMap E.arctanh (E.corrcoef (E.reduce_by_labels (E.to2d raw) parc))))
    ∧ processFile E none img = .ok (matMap E.arctanh (E.corrcoef (E.to2d raw))) := by
  refine ⟨⟨fun hmem => ?_, fun hne => ?_⟩, fun heq => ?_, fun hc => ?_, ?_⟩
  · rcases hmem with ⟨msg, hmsg⟩
    intro heq
    simp [_parcellate_timeseries, heq] at hmsg
  · exact ⟨"Parcellation dimensions do not match timeseries dimensions.",
      by simp [_parcellate_timeseries, hne]⟩
  · simp [_parcellate_timeseries, heq]
  · simp [processFile, hload, _parcellate_timeseries, hc]
  · simp [processFile, hload]

theorem parcellation_applied_iff_dims_match_witness :
    ((∃ msg, _parcellate_timeseries trivExternals.reduce_by_labels ⟨1, 2, fun _ _ => 0⟩ [0] =
        .error (.inputError msg)) ↔ (Arr2.mk 1 2 (fun _ _ => 0)).cols ≠ [(0 : ℚ)].length)
    ∧ ((Arr2.mk 1 2 (fun _ _ => 0)).cols = [(0 : ℚ)].length →
        _parcellate_timeseries trivExternals.reduce_by_labels ⟨1, 2, fun _ _ => 0⟩ [0] =
          .ok (trivExternals.reduce_by_labels ⟨1, 2, fun _ _ => 0⟩ [0]))
    ∧ ((trivExternals.to2d 5).cols = [(0 : ℚ)].length →
        processFile trivExternals (some [0]) (Image.nifti 5) =
          .ok (matMap trivExternals.arctanh
            (trivExternals.corrcoef (trivExternals.reduce_by_labels (trivExternals.to2d 5) [0]))))
    ∧ processFile trivExternals none (Image.nifti 5) =
        .ok (matMap trivExternals.arctanh (trivExternals.corrcoef (trivExternals.to2d 5))) :=
  parcellation_applied_iff_dims_match trivExternals ⟨1, 2, fun _ _ => 0⟩ [0]
    (Image.nifti 5) 5 rfl

theorem getData_error_typed {Raw : Type} (img : Image Raw) (e : PyErr)
    (h : _get_nifti_gifti_data img = .error e) : e.isTyped = true := by
  cases img with
  | nifti d => simp [_get_nifti_gifti_data] at h
  | gifti d => simp [_get_nifti_gifti_data] at h
  | other =>
    simp [_get_nifti_gifti_data] at h
    rw [← h]
    rfl

theorem parcellate_error_typed (red : Arr2 → List ℚ → Arr2) (ts : Arr2)
    (parc : List ℚ) (e : PyErr)
    (h : _parcellate_timeseries red ts parc = .error e) : e.isTyped = true := by
  unfold _parcellate_timeseries at h
  split at h
  · rw [← (Except.error.injEq _ _).mp h]
    rfl
  · simp at h

theorem loadParc_error_typed {Raw : Type} (E : Externals Raw)
    (pfile : Option (Image Raw)) (e : PyErr)
    (h : loadParcellationData E pfile = .error e) : e.isTyped = true := by
  cases pfile with
  | none => simp [loadParcellationData] at h
  | some img =>
    simp only [loadParcellationData] at h
    cases hload : _get_nifti_gifti_data img with
    | error e2 =>
      rw [hload] at h
      exact (Except.error.injEq _ _).mp h ▸ getData_error_typed img e2 hload
    | ok raw =>
      rw [hload] at h
      simp at h

theorem processFile_error_typed {Raw : Type} (E : Externals Raw)
    (pd : Option (List ℚ)) (img : Image Raw) (e : PyErr)
    (h : processFile E pd img = .error e) : e.isTyped = true := by
  unfold processFile at h
  cases hload : _get_nifti_gifti_data img with
  | error e2 =>
    rw [hload] at h
    exact (Except.error.injEq _ _).mp h ▸ getData_error_typed img e2 hload
  | ok raw =>
    rw [hload] at h
    cases pd with
    | none => simp at h
    | some p =>
      simp only at h
      cases hp : _parcellate_timeseries E.reduce_by_labels (E.to2d raw) p with
      | error e2 =>
        rw [hp] at h
        exact (Except.error.injEq _ _).mp h ▸
          parcellate_error_typed E.reduce_by_labels (E.to2d raw) p e2 hp
      | ok ts2d =>
        rw [hp] at h
        simp at h

theorem connLoop_error_typed {Raw : Type} (pf : Image Raw → Except PyErr Mat)
    (htyped : ∀ f e, pf f = .error e → e.isTyped = true) (n : ℚ) :
    ∀ (fs : List (Image Raw)) (acc : Mat) (e : PyErr),
      connLoop pf n acc fs = .error e → e.isTyped = true := by
  intro fs
  induction fs with
  | nil =>
    intro acc e h
    simp [connLoop] at h
  | cons f fs ih =>
    intro acc e h
    unfold connLoop at h
    cases hp : pf f with
    | error e2 =>
      rw [hp] at h
      exact (Except.error.injEq _ _).mp h ▸ htyped f e2 hp
    | ok z =>
      rw [hp] at h
      exact ih (matAdd acc (matDiv z n)) e h

/-- Claim C4 (amended): every failure the pipeline's validation and
serialization functions signal on invalid input is one of the package's
typed exceptions (`InputError` or `InternalError`, both under
`BaseLoggingError`), with the single exception of the empty-collection
guard of `_get_connectivity_matrix`, which raises the built-in
`ValueError`. -/
theorem errors_typed_except_empty_guard {Raw : Type} (E : Externals Raw) :
    (∀ (files : List (Image Raw)) (pfile : Option (Image Raw)) (e : PyErr),
        _get_connectivity_matrix E files pfile = .error e →
        e.isTyped = true ∨ (files = [] ∧ e = .valueError "No files provided."))
    ∧ (∀ (exists_fs : String → Bool) (args : Args) (files : List String) (e : PyErr),
        _raise_invalid_input exists_fs args files = .error e → e.isTyped = true)
    ∧ (∀ (g l : ℚ) (fname : String) (e : PyErr),
        save g l fname = .error e → e.isTyped = true)
    ∧ (∀ (ts : Arr2) (parc : List ℚ) (e : PyErr),
        _parcellate_timeseries E.reduce_by_labels ts parc = .error e → e.isTyped = true)
    ∧ (∀ (img : Image Raw) (e : PyErr),
        _get_nifti_gifti_data img = .error e → e.isTyped = true) := by
  refine ⟨?_, ?_, ?_, ?_, ?_⟩
  · intro files pfile e h
    cases files with
    | nil =>
      simp only [_get_connectivity_matrix] at h
      exact Or.inr ⟨rfl, ((Except.error.injEq _ _).mp h).symm⟩
    | cons f fs =>
      left
      simp only [_get_connectivity_matrix] at h
      cases hpd : loadParcellationData E pfile with
      | error e2 =>
        rw [hpd] at h
        exact (Except.error.injEq _ _).mp h ▸ loadParc_error_typed E pfile e2 hpd
      | ok pd =>
        rw [hpd] at h
        simp only at h
        cases hp : processFile E pd f with
        | error e2 =>
          rw [hp] at h
          exact (Except.error.injEq _ _).mp h ▸ processFile_error_typed E pd f e2 hp
        | ok z0 =>
          rw [hp] at h
          simp only at h
          cases hl : connLoop (processFile E pd) ((f :: fs).length : ℚ)
              (matDiv z0 ((f :: fs).length : ℚ)) fs with
          | error e2 =>
            rw [hl] at h
            exact (Except.error.injEq _ _).mp h ▸
              connLoop_error_typed (processFile E pd)
                (fun g eg hg => processFile_error_typed E pd g eg hg)
                ((f :: fs).length : ℚ) fs (matDiv z0 ((f :: fs).length : ℚ)) e2 hl
          | ok g =>
            rw [hl] at h
            simp at h
  · intro exists_fs args files e h
    unfold _raise_invalid_input at h
    split at h
    · rw [← (Except.error.injEq _ _).mp h]
      rfl
    · cases files with
      | nil =>
        rw [← (Except.error.injEq _ _).mp h]
        rfl
      | cons first rest =>
        simp only at h
        split at h
        · rw [← (Except.error.injEq _ _).mp h]
          rfl
        · simp at h
  · intro g l fname e h
    unfold save at h
    split at h
    · simp at h
    · split at h
      · simp at h
      · rw [← (Except.error.injEq _ _).mp h]
        rfl
  · exact fun ts parc e h => parcellate_error_typed E.reduce_by_labels ts parc e h
  · exact fun img e h => getData_error_typed img e h

/-- Claim C4's failure on the code as written: an empty file collection
passed to `_get_connectivity_matrix` raises the plain built-in `ValueError`
(gradients.py lines 80–81), which is not part of the
`BaseLoggingError` hierarchy. -/
theorem empty_collection_raises_untyped_valueError :
    _get_connectivity_matrix trivExternals [] none =
      .error (.valueError "No files provided.")
    ∧ (PyErr.valueError "No files provided.").isTyped = false :=
  ⟨rfl, rfl⟩

/-- Claim C5's failure on the code as written: the parser `cli.main`
actually builds (`cli._get_parser`) passes no `choices` list for
`--dimensionality_reduction`, so argument parsing accepts the invalid value
"foo" and the pipeline runs with it; the restriction to
`{"pca", "le", "dm"}` exists only in the unused `parser.get_parser`, and
in `cli._get_parser`'s own help text. -/
theorem cli_accepts_invalid_dimensionality_reduction :
    argparse_accepts cli_dimensionality_reduction "foo" = true
    ∧ argparse_accepts parserModule_dimensionality_reduction "foo" = false
    ∧ argparse_accepts parserModule_dimensionality_reduction "pca" = true
    ∧ argparse_accepts parserModule_dimensionality_reduction "le" = true
    ∧ argparse_accepts parserModule_dimensionality_reduction "dm" = true := by
  refine ⟨rfl, ?_, ?_, ?_, ?_⟩ <;> decide

/-- Claim C7: the pipeline is deterministic.  `compute_gradients` constructs
the embedding with the fixed `random_state=0` (gradients.py line 59), so its
result does not depend on the ambient random seed: two runs with the same
files, parcellation, approach, kernel, `n_components` and sparsity produce
identical gradients and lambdas. -/
theorem compute_gradients_deterministic {Raw : Type} (E : Externals Raw)
    (fitCore : Nat → FitInput → Mat × Mat) (seed1 seed2 : Nat)
    (files : List (Image Raw)) (pfile : Option (Image Raw))
    (approach kernel : String) (n_components : Nat) (sparsity : ℚ) :
    compute_gradients E fitCore seed1 files pfile approach kernel n_components sparsity =
      compute_gradients E fitCore seed2 files pfile approach kernel n_components sparsity := by
  unfold compute_gradients GradientMaps_fit
  cases _get_connectivity_matrix E files pfile <;> rfl

theorem string_append_assoc (a b c : String) :
    String.append (String.append a b) c = String.append a (String.append b c) := by
  cases a
  cases b
  cases c
  simp [String.append]

/-- Claim C6: `utils.save` persists the gradients and lambdas via HDF5
(datasets `gradients` and `lambdas`) when the filename's suffix is `.h5`,
via JSON (object keys `gradients` and `lambdas`) when the suffix is
`.json`, and raises `InternalError` for every other suffix. -/
theorem save_dispatches_on_suffix {A : Type} (g l : A) (fname : String) :
    (pathSuffix fname = ".h5" →
        save g l fname = .ok (SavedFile.hdf5 [("gradients", g), ("lambdas", l)]))
    ∧ (pathSuffix fname = ".json" →
        save g l fname = .ok (SavedFile.jsonFile [("gradients", g), ("lambdas", l)]))
    ∧ (pathSuffix fname ≠ ".h5" → pathSuffix fname ≠ ".json" →
        save g l fname = .error (.internalError (String.append "Unsupported file type: " fname))) := by
  refine ⟨fun h5 => ?_, fun hj => ?_, fun h5 hj => ?_⟩
  · simp [save, save_hdf5, h5]
  · simp [save, save_json, hj]
  · simp [save, h5, hj]

/-- The model `pathSuffix` agrees with `pathlib` on the filenames `cli.main`
produces: the suffix of `dir/gradients.h5` is `.h5`, of `dir/gradients.json`
is `.json`, and a bare name such as `gradients` has no suffix. -/
theorem pathSuffix_examples :
    pathSuffix "/out/gradients.h5" = ".h5"
    ∧ pathSuffix "/out/gradients.json" = ".json"
    ∧ pathSuffix "/out/gradients" = ""
    ∧ pathSuffix "archive.tar.gz" = ".gz"
    ∧ pathSuffix ".bashrc" = "" := by
  refine ⟨?_, ?_, ?_, ?_, ?_⟩ <;> decide

/-- Claim C8: the CLI's pre-run overwrite guard tests the existence of the
fixed path `output_dir/gradients.h5` regardless of `--output_format`: with
`--output_format json` and otherwise valid inputs, validation passes
whenever `gradients.h5` is absent — whatever `exists_fs` says about
`gradients.json`, which the run then silently overwrites — while an
existing `gradients.h5` raises `InputError` (unless `--force`) even though
the run would write `gradients.json`. -/
theorem overwrite_guard_tests_h5_only (exists_fs : String → Bool) (args : Args)
    (first : String) (rest : List String)
    (hjson : args.output_format = "json")
    (hvalid : args.parcellation.isNone = false ∨
      (strEndsWith first "nii" = false ∧ strEndsWith first "nii.gz" = false)) :
    (exists_fs (String.append args.output_dir "/gradients.h5") = false →
        _raise_invalid_input exists_fs args (first :: rest) = .ok ()
        ∧ outputFile args = String.append args.output_dir "/gradients.json")
    ∧ (exists_fs (String.append args.output_dir "/gradients.h5") = true →
        args.force = false →
        _raise_invalid_input exists_fs args (first :: rest) =
          .error (.inputError "Output file already exists. Use --force to overwrite."))
    ∧ (args.force = true →
        _raise_invalid_input exists_fs args (first :: rest) = .ok ()) := by
  have hout : outputFile args = String.append args.output_dir "/gradients.json" := by
    rw [outputFile, hjson, string_append_assoc]
    have hlit : String.append "/gradients." "json" = "/gradients.json" := by decide
    rw [hlit]
  have hvol : (args.parcellation.isNone &&
      (strEndsWith first "nii" || strEndsWith first "nii.gz")) = false := by
    rcases hvalid with h | ⟨h1, h2⟩
    · simp [h]
    · simp [h1, h2]
  refine ⟨fun habsent => ⟨?_, hout⟩, fun hpresent hforce => ?_, fun hforce => ?_⟩
  · simp [_raise_invalid_input, habsent, hvol]
  · simp [_raise_invalid_input, hpresent, hforce]
  · simp [_raise_invalid_input, hforce, hvol]

theorem overwrite_guard_tests_h5_only_witness :
    _raise_invalid_input (fun p => p == "/out/gradients.json")
        ⟨"/out", "json", none, false⟩ ["sub-01.gii"] = .ok ()
    ∧ outputFile ⟨"/out", "json", none, false⟩ = "/out/gradients.json" := by
  have h := (overwrite_guard_tests_h5_only (fun p => p == "/out/gradients.json")
    ⟨"/out", "json", none, false⟩ "sub-01.gii" [] rfl (Or.inr (by decide))).1 (by decide)
  exact ⟨h.1, h.2.trans (by decide)⟩

/-- Claim C9: the volume-inputs-need-a-parcellation check of
`_raise_invalid_input` inspects only the first file of the list: with no
parcellation supplied and the overwrite guard passing, it raises
`InputError` exactly when the first file's name ends in `nii` or `nii.gz`,
so a list whose first file is a GIFTI surface passes validation even when
NIfTI volume files appear later in the list. -/
theorem volume_check_reads_only_first_file (exists_fs : String → Bool) (args : Args)
    (first : String) (rest : List String)
    (hparc : args.parcellation = none)
    (hguard : (exists_fs (String.append args.output_dir "/gradients.h5") && !args.force) = false) :
    ((∃ msg, _raise_invalid_input exists_fs args (first :: rest) = .error (.inputError msg)) ↔
      (strEndsWith first "nii" = true ∨ strEndsWith first "nii.gz" = true))
    ∧ ((strEndsWith first "nii" = false ∧ strEndsWith first "nii.gz" = false) →
        _raise_invalid_input exists_fs args (first :: rest) = .ok ()) := by
  by_cases hvol : (strEndsWith first "nii" || strEndsWith first "nii.gz") = true
  · constructor
    · constructor
      · intro _
        rcases Bool.or_eq_true_iff.mp hvol with h | h
        · exact Or.inl h
        · exact Or.inr h
      · intro _
        exact ⟨"Must provide a parcellation if input files are volume files.",
          by simp [_raise_invalid_input, hguard, hparc, hvol]⟩
    · intro ⟨h1, h2⟩
      rw [h1, h2] at hvol
      simp at hvol
  · have hvol' : (strEndsWith first "nii" || strEndsWith first "nii.gz") = false :=
      Bool.not_eq_true _ ▸ Bool.eq_false_iff.mpr (fun hc => hvol hc)
    constructor
    · constructor
      · intro ⟨msg, hmsg⟩
        simp [_raise_invalid_input, hguard, hparc, hvol'] at hmsg
      · intro hends
        rcases hends with h | h <;> simp [h] at hvol'
    · intro _
      simp [_raise_invalid_input, hguard, hparc, hvol']

theorem volume_check_reads_only_first_file_witness :
    _raise_invalid_input (fun _ => false) ⟨"/out", "h5", none, false⟩
      ["sub-01_bold.gii", "sub-02_bold.nii.gz"] = .ok () :=
  (volume_check_reads_only_first_file (fun _ => false) ⟨"/out", "h5", none, false⟩
    "sub-01_bold.gii" ["sub-02_bold.nii.gz"] rfl rfl).2 (by decide)

/-- Claim C10: the `--sparsity` validator accepts a numeric value exactly
when it lies in the half-open interval `[0, 1)`: the boundary value 0 is
accepted and returned, while 1 and every value outside the interval is
rejected with `argparse.ArgumentTypeError`. -/
theorem sparsity_validator_halfopen_interval (v : ℚ) :
    ((∃ x, _is_between_zero_and_one v = .ok x) ↔ (0 ≤ v ∧ v < 1))
    ∧ (0 ≤ v → v < 1 → _is_between_zero_and_one v = .ok v)
    ∧ (¬(0 ≤ v ∧ v < 1) →
        _is_between_zero_and_one v = .error (.argumentTypeError "is not in range [0, 1)."))
    ∧ _is_between_zero_and_one 0 = .ok 0
    ∧ _is_between_zero_and_one 1 = .error (.argumentTypeError "is not in range [0, 1).") := by
  refine ⟨⟨fun hmem => ?_, fun hin => ?_⟩, fun h0 h1 => ?_, fun hout => ?_, ?_, ?_⟩
  · rcases hmem with ⟨x, hx⟩
    by_contra hout
    simp [_is_between_zero_and_one, hout] at hx
  · exact ⟨v, by simp [_is_between_zero_and_one, hin]⟩
  · simp [_is_between_zero_and_one, h0, h1]
  · simp [_is_between_zero_and_one, hout]
  · simp [_is_between_zero_and_one]
  · norm_num [_is_between_zero_and_one]
